import Mathlib

/-
Shallow embedding of the RoboLab inventory application (src/streamlit_app.py).

The SQLite tables are modelled as Lean lists of rows; the database effect of
each view function is modelled as a pure function on that state.  Timestamps are
modelled as integers counting minutes, so that the 5-minute session window of
the source (`timedelta(minutes=5)`) becomes `+ 5`.
-/

namespace RoboLab

/-- Row of the `inventory` table
(`id, name, category, location, quantity, min_stock, price`). -/
structure InventoryRow where
  id : Nat
  name : String
  category : String
  location : String
  quantity : Int
  min_stock : Int
  price : Rat
deriving DecidableEq

/-- Row of the `transactions` table
(`id, item_id, item_name, type, quantity, user, timestamp, notes`). -/
structure TransactionRow where
  id : Nat
  item_id : Nat
  item_name : String
  type : String
  quantity : Int
  user : String
  timestamp : Int
  notes : String
deriving DecidableEq

/-- Row of the `users` table
(`id, emp_id UNIQUE, name, password, role, dob, gender, address, phone`). -/
structure UserRow where
  id : Nat
  emp_id : String
  name : String
  password : String
  role : String
  dob : Option String
  gender : Option String
  address : Option String
  phone : Option String
deriving DecidableEq

/-- Row of the `sessions` table (`token PRIMARY KEY, user_id, expires_at`). -/
structure SessionRow where
  token : String
  user_id : Nat
  expires_at : Int
deriving DecidableEq

/-- The slice of the database that the stock pages touch:
the `inventory` table and the `transactions` table. -/
structure StockState where
  inventory : List InventoryRow
  transactions : List TransactionRow
deriving DecidableEq

/-- Database effect of the Stock In form of `view_stock_ops`
(src/streamlit_app.py lines 410-417): it runs
`UPDATE inventory SET quantity = quantity + ? WHERE name = ?`
for the selected item name and quantity, and runs no other statement —
in particular it inserts nothing into `transactions`.
The form widget `st.number_input("Qty", 1)` only produces quantities ≥ 1. -/
def stockInOp (s : StockState) (i : String) (q : Int) : StockState :=
  { s with inventory :=
      s.inventory.map fun r =>
        if r.name = i then { r with quantity := r.quantity + q } else r }

/-- Database effect of the Stock Out form of `view_stock_ops`
(src/streamlit_app.py lines 418-425): it runs
`UPDATE inventory SET quantity = quantity - ? WHERE name = ?`
for the selected item name and quantity, with no on-hand check and
no insert into `transactions`. -/
def stockOutOp (s : StockState) (i : String) (q : Int) : StockState :=
  { s with inventory :=
      s.inventory.map fun r =>
        if r.name = i then { r with quantity := r.quantity - q } else r }

/-- A row of an uploaded spreadsheet, with the fields `bulk_import` is
documented to consume; every field may be missing. -/
structure ImportRow where
  name : Option String
  category : Option String
  location : Option String
  quantity : Option Int
  min_stock : Option Int
  price : Option Rat
deriving DecidableEq

/-- Database effect of the Upload tab of `view_inventory`
(src/streamlit_app.py lines 397-402): the file is read
(`d = pd.read_excel(f)`) and then, per the source comment
`# Dummy upload logic`, nothing is done with it — no row is inserted and
no count is computed; the state is returned unchanged. -/
def uploadExcel (s : StockState) (rows : List ImportRow) : StockState := s

/-- The low-stock selection of `view_dashboard`
(src/streamlit_app.py line 215 and line 257):
the pandas selection of rows with quantity at most min_stock. -/
def dashboardLowStock (inv : List InventoryRow) : List InventoryRow :=
  inv.filter fun r => r.quantity ≤ r.min_stock

/-- The selection of `view_shopping` (src/streamlit_app.py line 434):
`SELECT * FROM inventory WHERE quantity < min_stock`. -/
def shoppingList (inv : List InventoryRow) : List InventoryRow :=
  inv.filter fun r => r.quantity < r.min_stock

/-- The "Arduino Uno" item of the spec scenario: quantity 20, threshold 5. -/
def arduino : InventoryRow :=
  ⟨1, "Arduino Uno", "Microcontrollers", "Shelf A", 20, 5, 350⟩

/-- A stock state holding just the scenario item and an empty ledger. -/
def s0 : StockState := ⟨[arduino], []⟩

/-- Claim C1, evaluated on the code at the failing input: stocking out 25 of
"Arduino Uno" (on hand: 20) does NOT fail — the code performs the subtraction
unguarded, leaving quantity -5, and writes no Transaction row.  The claim
says the operation fails with InsufficientStock and leaves quantity at 20. -/
theorem claim_C1_code_eval :
    (stockOutOp s0 "Arduino Uno" 25).inventory.map (fun r => r.quantity) = [-5]
    ∧ (stockOutOp s0 "Arduino Uno" 25).transactions = [] := by
  constructor <;> rfl

/-- Claim C2, evaluated on the code at the failing input: stocking out 15 of
"Arduino Uno" (on hand: 20) decrements the quantity to 5 as claimed, but the
code appends NO Transaction row (the `transactions` table is never written by
`view_stock_ops`), while the claim requires exactly one Transaction with
direction=out and quantity=15. -/
theorem claim_C2_code_eval :
    (stockOutOp s0 "Arduino Uno" 15).inventory.map (fun r => r.quantity) = [5]
    ∧ (stockOutOp s0 "Arduino Uno" 15).transactions.length = 0 := by
  constructor <;> rfl

/-- Claim C3, evaluated on the code at the failing input: stocking in 10 of
"Arduino Uno" increases the quantity from 20 to 30 as claimed, but the code
appends NO Transaction row with direction=in, while the claim requires one. -/
theorem claim_C3_code_eval :
    (stockInOp s0 "Arduino Uno" 10).inventory.map (fun r => r.quantity) = [30]
    ∧ (stockInOp s0 "Arduino Uno" 10).transactions = [] := by
  constructor <;> rfl

/-- Claim C9, evaluated on the code at the failing input: uploading one
well-formed row named "LED" leaves the inventory exactly as it was — the
upload tab is `# Dummy upload logic` and inserts nothing — while the claim
requires a new InventoryItem named "LED" with defaults to be inserted and a
count of 1 returned. -/
theorem claim_C9_code_eval :
    uploadExcel s0 [⟨some "LED", none, none, none, none, none⟩] = s0
    ∧ (uploadExcel s0 [⟨some "LED", none, none, none, none, none⟩]).inventory.length = 1
    ∧ ¬ ∃ r ∈ (uploadExcel s0 [⟨some "LED", none, none, none, none, none⟩]).inventory,
        r.name = "LED" := by
  refine ⟨rfl, rfl, ?_⟩
  decide

/-- Claim C10: both stock forms select the rows to mutate by item NAME, not by
id: the update touches every row whose name equals the selected name (so
duplicate-named rows are all mutated by the same q), leaves every other row
unchanged, never adds or removes inventory rows, and never touches the
transactions table. -/
theorem claim_C10_name_frame (s : StockState) (n : String) (q : Int)
    (i : Nat) (r : InventoryRow) (h : s.inventory[i]? = some r) :
    (stockInOp s n q).inventory.length = s.inventory.length
    ∧ (stockOutOp s n q).inventory.length = s.inventory.length
    ∧ (r.name = n →
        (stockInOp s n q).inventory[i]? = some { r with quantity := r.quantity + q }
        ∧ (stockOutOp s n q).inventory[i]? = some { r with quantity := r.quantity - q })
    ∧ (r.name ≠ n →
        (stockInOp s n q).inventory[i]? = some r
        ∧ (stockOutOp s n q).inventory[i]? = some r)
    ∧ (stockInOp s n q).transactions = s.transactions
    ∧ (stockOutOp s n q).transactions = s.transactions := by
  refine ⟨by simp [stockInOp], by simp [stockOutOp], ?_, ?_, rfl, rfl⟩
  · intro hn
    constructor <;> simp [stockInOp, stockOutOp, List.getElem?_map, h, hn]
  · intro hn
    constructor <;> simp [stockInOp, stockOutOp, List.getElem?_map, h, hn]

/-- Witness for claim C10 at a concrete state: stocking 3 in and out of
"Arduino Uno" changes exactly the "Arduino Uno" row by 3. -/
theorem claim_C10_name_frame_witness :
    (stockInOp s0 "Arduino Uno" 3).inventory[0]? =
      some { arduino with quantity := arduino.quantity + 3 }
    ∧ (stockOutOp s0 "Arduino Uno" 3).inventory[0]? =
      some { arduino with quantity := arduino.quantity - 3 } :=
  (claim_C10_name_frame s0 "Arduino Uno" 3 0 arduino rfl).2.2.1 rfl

/-- An inventory row sitting exactly at its reorder threshold:
quantity 5, min_stock 5. -/
def tiedItem : InventoryRow := ⟨2, "Jumper Wires", "Passive", "Bin 3", 5, 5, 2⟩

/-- Counterexample to claim C6: for an item whose quantity ties its threshold,
the dashboard low-stock selection (quantity ≤ min_stock) contains it while
the shopping-list page query (quantity < min_stock) does not — so the two
pages do NOT use the same set, and the shopping list excludes ties. -/
theorem claim_C6_counterexample :
    dashboardLowStock [tiedItem] = [tiedItem] ∧ shoppingList [tiedItem] = [] := by
  constructor <;> rfl

/-- Claim C6 as amended: the dashboard alert selects exactly the items with
quantity ≤ reorder threshold (ties included); the shopping-list generator
selects exactly the items with quantity strictly below the threshold, so an
item tied at its threshold appears in the dashboard alert but not in the
shopping list. -/
theorem claim_C6_amended (inv : List InventoryRow) (r : InventoryRow) :
    (r ∈ dashboardLowStock inv ↔ r ∈ inv ∧ r.quantity ≤ r.min_stock)
    ∧ (r ∈ shoppingList inv ↔ r ∈ inv ∧ r.quantity < r.min_stock)
    ∧ (r ∈ inv → r.quantity = r.min_stock →
        r ∈ dashboardLowStock inv ∧ r ∉ shoppingList inv) := by
  refine ⟨?_, ?_, ?_⟩
  · simp [dashboardLowStock, List.mem_filter]
  · simp [shoppingList, List.mem_filter]
  · intro hm he
    simp [dashboardLowStock, shoppingList, List.mem_filter, hm, he]

/-- Witness for the amended claim C6 at the concrete tied item. -/
theorem claim_C6_amended_witness :
    tiedItem ∈ dashboardLowStock [tiedItem] ∧ tiedItem ∉ shoppingList [tiedItem] :=
  (claim_C6_amended [tiedItem] tiedItem).2.2 (by simp) rfl

/-- The slice of the database that login and sessions touch, together with
the current wall-clock time (in minutes, as an integer). -/
structure AuthState where
  users : List UserRow
  sessions : List SessionRow
  now : Int
deriving DecidableEq

/-- `create_session(user_id)` (src/streamlit_app.py lines 165-169): generates
a fresh uuid token (modelled as the parameter `tok`; freshness is a hypothesis
of the theorems), inserts a session with expiry now + 5 minutes, and returns
the token. -/
def create_session (st : AuthState) (uid : Nat) (tok : String) :
    AuthState × String :=
  ({ st with sessions := st.sessions ++ [⟨tok, uid, st.now + 5⟩] }, tok)

/-- `validate_session(token)` (src/streamlit_app.py lines 171-185): first runs
`DELETE FROM sessions WHERE expires_at < now`; then selects the session with
this token and `expires_at > now`; if found, sets its expiry to now + 5 and
returns the user row whose id is the user_id of the session (None if that user is
gone); otherwise returns None. -/
def validate_session (st : AuthState) (tok : String) :
    AuthState × Option UserRow :=
  match (st.sessions.filter fun s => !decide (s.expires_at < st.now)).find?
      (fun s => decide (s.token = tok ∧ st.now < s.expires_at)) with
  | some s =>
      ({ st with sessions :=
            ((st.sessions.filter fun r => !decide (r.expires_at < st.now)).map
              (fun r =>
                if r.token = tok then { r with expires_at := st.now + 5 }
                else r)) },
       st.users.find? fun u => decide (u.id = s.user_id))
  | none =>
      ({ st with sessions :=
            st.sessions.filter fun s => !decide (s.expires_at < st.now) },
       none)

/-- Database effect of `logout_user` (src/streamlit_app.py lines 187-193):
`DELETE FROM sessions WHERE token = ?`. -/
def logout_user (st : AuthState) (tok : String) : AuthState :=
  { st with sessions := st.sessions.filter fun s => !decide (s.token = tok) }

/-- The login credential check of `main` (src/streamlit_app.py lines 492-494):
`SELECT * FROM users WHERE emp_id = ? AND password = ?`, taking the first
returned row if any. -/
def authenticate (users : List UserRow) (emp pw : String) : Option UserRow :=
  users.find? fun u => decide (u.emp_id = emp ∧ u.password = pw)

/-- `get_permissions(role_name)` (src/streamlit_app.py lines 195-199): looks
the role up in the `roles` table and returns its permission list, or the empty
list when the role is missing.  The JSON-encoded permission column is modelled
directly as a list of page names. -/
def get_permissions (roles : List (String × List String)) (role : String) :
    List String :=
  match roles.find? (fun r => decide (r.1 = role)) with
  | some r => r.2
  | none => []

/-- The access gate of `main` (src/streamlit_app.py line 545): a view `v` is
denied when `v != "My Profile" and v not in perms`, so it is allowed exactly
when it is the profile page or lies in the permission list of the role. -/
def is_allowed (roles : List (String × List String)) (role page : String) :
    Bool :=
  decide (page = "My Profile") || (get_permissions roles role).contains page

/-- The `roles` table as seeded by `init_db`
(src/streamlit_app.py lines 124-135). -/
def seeded_roles : List (String × List String) :=
  [("admin", ["Dashboard", "Inventory", "Stock Operations", "Reports",
              "Shopping List", "User Management", "Settings"]),
   ("assistant", ["Dashboard", "Inventory", "Stock Operations", "Reports",
                  "Shopping List"])]

/-- The admin user as seeded by `init_db` (src/streamlit_app.py line 140). -/
def admin_user : UserRow :=
  ⟨1, "admin", "System Admin", "admin123", "admin", none, none, none, none⟩

/-- The assistant user as seeded by `init_db`
(src/streamlit_app.py line 141). -/
def assistant_user : UserRow :=
  ⟨2, "assistant", "Lab Assistant", "123", "assistant", none, none, none, none⟩

/-- The `users` table as seeded by `init_db`. -/
def seeded_users : List UserRow := [admin_user, assistant_user]

/-- If no element of the front list satisfies the predicate, `find?` over the
concatenation is `find?` over the back list. -/
theorem find?_append_of_forall_false {α : Type} (p : α → Bool)
    (l1 l2 : List α) (h : ∀ x ∈ l1, p x = false) :
    (l1 ++ l2).find? p = l2.find? p := by
  induction l1 with
  | nil => simp
  | cons a l ih =>
      rw [List.cons_append, List.find?_cons_of_neg _ (by simp [h a])]
      exact ih fun x hx => h x (by simp [hx])

/-- When no session carries the token with an unexpired expiry,
`validate_session` returns none. -/
theorem validate_none_of_no_valid (st : AuthState) (tok : String)
    (h : ∀ s ∈ st.sessions, ¬(s.token = tok ∧ st.now < s.expires_at)) :
    (validate_session st tok).2 = none := by
  have hfind : (st.sessions.filter fun s => !decide (s.expires_at < st.now)).find?
      (fun s => decide (s.token = tok ∧ st.now < s.expires_at)) = none := by
    rw [List.find?_eq_none]
    intro x hx
    simpa using h x (List.mem_filter.mp hx).1
  unfold validate_session
  simp only [hfind]

/-- When the purged session table contains a matching unexpired session,
`validate_session` resolves the user of that session. -/
theorem validate_some_of_found (st : AuthState) (tok : String) (s : SessionRow)
    (hfind : (st.sessions.filter fun r => !decide (r.expires_at < st.now)).find?
        (fun r => decide (r.token = tok ∧ st.now < r.expires_at)) = some s) :
    (validate_session st tok).2 =
      st.users.find? fun u => decide (u.id = s.user_id) := by
  unfold validate_session
  simp only [hfind]

/-- `validate_session` either fails and leaves exactly the purged session
table, or succeeds and leaves the purged table with the matching token
refreshed. -/
theorem validate_session_split (st : AuthState) (tok : String) :
    ((validate_session st tok).2 = none ∧
      (validate_session st tok).1.sessions =
        st.sessions.filter fun r => !decide (r.expires_at < st.now))
    ∨ ((validate_session st tok).1.sessions =
        (st.sessions.filter fun r => !decide (r.expires_at < st.now)).map
          fun r => if r.token = tok then { r with expires_at := st.now + 5 }
                   else r) := by
  unfold validate_session
  cases hf : (st.sessions.filter fun s => !decide (s.expires_at < st.now)).find?
      (fun s => decide (s.token = tok ∧ st.now < s.expires_at)) with
  | none => exact Or.inl ⟨rfl, rfl⟩
  | some sf => exact Or.inr rfl

/-- Claim C4: creating a session for a user and immediately validating the
returned token yields the originating user; validating a token that was never
issued (no session carries it) yields none; and validating a token after
`logout_user` invalidated it yields none. -/
theorem claim_C4_session_roundtrip (st : AuthState) (uid : Nat) (tok : String)
    (u : UserRow)
    (hfresh : ∀ s ∈ st.sessions, s.token ≠ tok)
    (huser : st.users.find? (fun v => decide (v.id = uid)) = some u) :
    (validate_session (create_session st uid tok).1 tok).2 = some u
    ∧ (validate_session st tok).2 = none
    ∧ ∀ st2 : AuthState, (validate_session (logout_user st2 tok) tok).2 = none := by
  refine ⟨?_, ?_, ?_⟩
  · have hfalse : ∀ x ∈ st.sessions.filter fun r => !decide (r.expires_at < st.now),
        (fun r => decide (r.token = tok ∧ st.now < r.expires_at)) x = false := by
      intro x hx
      simp [hfresh x (List.mem_filter.mp hx).1]
    have hfind : (((create_session st uid tok).1).sessions.filter
          fun r => !decide (r.expires_at < ((create_session st uid tok).1).now)).find?
        (fun r => decide (r.token = tok ∧ ((create_session st uid tok).1).now < r.expires_at))
        = some ⟨tok, uid, st.now + 5⟩ := by
      show ((st.sessions ++ [(⟨tok, uid, st.now + 5⟩ : SessionRow)]).filter
          fun r => !decide (r.expires_at < st.now)).find?
          (fun r => decide (r.token = tok ∧ st.now < r.expires_at))
          = some (⟨tok, uid, st.now + 5⟩ : SessionRow)
      rw [List.filter_append, find?_append_of_forall_false _ _ _ hfalse]
      simp
    rw [validate_some_of_found _ _ _ hfind]
    exact huser
  · exact validate_none_of_no_valid st tok
      fun s hs hc => hfresh s hs hc.1
  · intro st2
    apply validate_none_of_no_valid
    intro s hs hc
    have h2 : s ∈ st2.sessions ∧ ¬ s.token = tok := by
      simpa [logout_user, List.mem_filter] using hs
    exact h2.2 hc.1

/-- The seeded users table with no sessions at time 0, for witnesses. -/
def auth0 : AuthState := ⟨seeded_users, [], 0⟩

/-- Witness for claim C4 at a concrete state: logging the seeded admin in and
validating the fresh token restores the admin; validating the same token on
the empty session table yields none. -/
theorem claim_C4_session_roundtrip_witness :
    (validate_session (create_session auth0 1 "tok-1").1 "tok-1").2 = some admin_user
    ∧ (validate_session auth0 "tok-1").2 = none :=
  ⟨(claim_C4_session_roundtrip auth0 1 "tok-1" admin_user
      (by simp [auth0]) (by rfl)).1,
   (claim_C4_session_roundtrip auth0 1 "tok-1" admin_user
      (by simp [auth0]) (by rfl)).2.1⟩

/-- Claim C5: validation at time `now` (a) leaves no session whose expiry has
passed, (b) deletes nothing but expired sessions — the token of every unexpired session
survives, (c) on success sets the expiry of the validated token to now + 5
(sliding window), (d) for every session validated at time now — the unique
session carrying the token, unexpired, as guaranteed by the `token PRIMARY KEY`
constraint — returns exactly the user record resolved from the user_id of that
session, and (e) returns none for a token all of whose sessions have expiry at
or before now — i.e. 5 or more minutes after their last use. -/
theorem claim_C5_sliding_expiry (st : AuthState) (tok : String) :
    (∀ s ∈ (validate_session st tok).1.sessions, st.now ≤ s.expires_at)
    ∧ (∀ s ∈ st.sessions, st.now ≤ s.expires_at →
        s.token ∈ (validate_session st tok).1.sessions.map fun r => r.token)
    ∧ ((validate_session st tok).2.isSome →
        ∀ s ∈ (validate_session st tok).1.sessions, s.token = tok →
          s.expires_at = st.now + 5)
    ∧ (∀ s ∈ st.sessions, s.token = tok → st.now < s.expires_at →
        (∀ s2 ∈ st.sessions, s2.token = tok → s2 = s) →
        (validate_session st tok).2 =
          st.users.find? fun u => decide (u.id = s.user_id))
    ∧ ((∀ s ∈ st.sessions, s.token = tok → s.expires_at ≤ st.now) →
        (validate_session st tok).2 = none) := by
  refine ⟨?_, ?_, ?_, ?_, ?_⟩
  · intro s hs
    rcases validate_session_split st tok with ⟨h2, hsess⟩ | hsess <;>
      rw [hsess] at hs
    · have := (List.mem_filter.mp hs).2
      simp at this
      omega
    · rcases List.mem_map.mp hs with ⟨r, hr, hfr⟩
      have hrkeep := (List.mem_filter.mp hr).2
      simp at hrkeep
      by_cases hrt : r.token = tok <;> simp [hrt] at hfr <;> rw [← hfr] <;>
        simp <;> omega
  · intro s hs hle
    have hsp : s ∈ st.sessions.filter fun r => !decide (r.expires_at < st.now) :=
      List.mem_filter.mpr ⟨hs, by simpa using not_lt.mpr hle⟩
    rcases validate_session_split st tok with ⟨h2, hsess⟩ | hsess <;> rw [hsess]
    · exact List.mem_map.mpr ⟨s, hsp, rfl⟩
    · refine List.mem_map.mpr ⟨(if s.token = tok
          then { s with expires_at := st.now + 5 } else s),
        List.mem_map.mpr ⟨s, hsp, rfl⟩, ?_⟩
      by_cases hst : s.token = tok <;> simp [hst]
  · intro hsome s hs hstok
    rcases validate_session_split st tok with ⟨h2, hsess⟩ | hsess
    · rw [h2] at hsome
      simp at hsome
    · rw [hsess] at hs
      rcases List.mem_map.mp hs with ⟨r, hr, hfr⟩
      by_cases hrt : r.token = tok
      · simp [hrt] at hfr
        rw [← hfr]
      · simp [hrt] at hfr
        rw [← hfr] at hstok
        exact absurd hstok hrt
  · intro s hs hstok hvalid huniq
    have hsp : s ∈ st.sessions.filter fun r => !decide (r.expires_at < st.now) :=
      List.mem_filter.mpr ⟨hs, by simp; omega⟩
    have hsome : ((st.sessions.filter fun r => !decide (r.expires_at < st.now)).find?
        (fun r => decide (r.token = tok ∧ st.now < r.expires_at))).isSome := by
      rw [List.find?_isSome]
      exact ⟨s, hsp, by simp [hstok, hvalid]⟩
    obtain ⟨w, hw⟩ := Option.isSome_iff_exists.mp hsome
    have hwmem := (List.mem_filter.mp (List.mem_of_find?_eq_some hw)).1
    have hwp := List.find?_some hw
    simp only [decide_eq_true_eq] at hwp
    have hws : w = s := huniq w hwmem hwp.1
    rw [validate_some_of_found st tok w hw, hws]
  · intro hall
    apply validate_none_of_no_valid
    intro s hs hc
    have := hall s hs hc.1
    omega

/-- An auth state whose only session, for token "tok-old", saw its last use at
time 0 (expiry 5) and is being validated at time 5. -/
def authStale : AuthState := ⟨seeded_users, [⟨"tok-old", 1, 5⟩], 5⟩

/-- An auth state whose only session, for token "tok-live", is unexpired
(expiry 5) at validation time 0. -/
def authLive : AuthState := ⟨seeded_users, [⟨"tok-live", 1, 5⟩], 0⟩

/-- Witness for claim C5 at concrete states: validating an unexpired session
returns the resolved user — the seeded admin — and a session last refreshed 5
minutes ago (expiry = now) no longer validates. -/
theorem claim_C5_sliding_expiry_witness :
    (validate_session authLive "tok-live").2 = some admin_user
    ∧ (validate_session authStale "tok-old").2 = none := by
  constructor
  · have h := (claim_C5_sliding_expiry authLive "tok-live").2.2.2.1
      ⟨"tok-live", 1, 5⟩ (by decide) rfl (by decide) (by decide)
    exact h.trans (by decide)
  · exact (claim_C5_sliding_expiry authStale "tok-old").2.2.2.2 (by decide)

/-- Claim C7: under the seeded role table the assistant role is not allowed
the "User Management" page, and the "My Profile" page is allowed for every
role table and every role name, including roles missing from the table. -/
theorem claim_C7_access_gate :
    is_allowed seeded_roles "assistant" "User Management" = false
    ∧ ∀ (roles : List (String × List String)) (role : String),
        is_allowed roles role "My Profile" = true := by
  refine ⟨rfl, ?_⟩
  intro roles role
  simp [is_allowed]

/-- Claim C8: when the users table has unique employee ids, `authenticate`
returns exactly the user record matching the given (employee id, secret)
pair, and returns none when no record matches. -/
theorem claim_C8_authenticate (users : List UserRow) (emp pw : String)
    (u : UserRow)
    (hnodup : (users.map fun v => v.emp_id).Nodup) :
    (u ∈ users → u.emp_id = emp → u.password = pw →
      authenticate users emp pw = some u)
    ∧ ((∀ v ∈ users, ¬(v.emp_id = emp ∧ v.password = pw)) →
      authenticate users emp pw = none) := by
  constructor
  · intro hu hemp hpw
    have hsome : (users.find? fun v =>
        decide (v.emp_id = emp ∧ v.password = pw)).isSome := by
      rw [List.find?_isSome]
      exact ⟨u, hu, by simp [hemp, hpw]⟩
    obtain ⟨w, hw⟩ := Option.isSome_iff_exists.mp hsome
    have hwmem := List.mem_of_find?_eq_some hw
    have hwp := List.find?_some hw
    simp only [decide_eq_true_eq] at hwp
    have hwu : w = u :=
      List.inj_on_of_nodup_map hnodup hwmem hu (by rw [hwp.1, hemp])
    rw [authenticate, hw, hwu]
  · intro hall
    rw [authenticate, List.find?_eq_none]
    intro v hv
    simpa using hall v hv

/-- Witness for claim C8 at the seeded users table: the seeded admin
credentials authenticate to the admin record, and a wrong secret yields
none. -/
theorem claim_C8_authenticate_witness :
    authenticate seeded_users "admin" "admin123" = some admin_user
    ∧ authenticate seeded_users "admin" "wrong" = none :=
  ⟨(claim_C8_authenticate seeded_users "admin" "admin123" admin_user
      (by decide)).1 (by simp [seeded_users]) rfl rfl,
   (claim_C8_authenticate seeded_users "admin" "wrong" admin_user
      (by decide)).2 (by decide)⟩

end RoboLab
